import Mathlib

/-!
# Verification of the `archive` client-side scripts

A shallow embedding of the three browser scripts of the repository:

* `src/js/sites.js` — the site lister: fetches `{ sites: [...] }` from the
  API, clears the `site-list` container and appends one card per record,
  each card appended only after that record's own icon fetch resolves;
* `src/script.js` — the theme controller plus a navbar loader;
* `src/unnamed/part_000` — a second, near-duplicate navbar loader.

DOM elements are modelled by the data the scripts put into them, the
CSS style of the document root by a partial map from property names to
values, browser local storage under the key `theme` by an
`Option String`, and each network fetch by an `Option String`/schedule
parameter describing how the environment answers it (`none` standing for
a fetch that never resolves).
-/

/-- The `data` object of a site record: `{ title, description }`. -/
structure SiteData where
  title : String
  description : String
deriving Repr, DecidableEq

/-- A site record of the API response: `{ name, data: { title, description } }`. -/
structure Site where
  name : String
  data : SiteData
deriving Repr, DecidableEq

/-- A rendered card: the `a.site` link built by the `forEach` callback of
`getSites`, with its inner `div` holding icon, title and description.
The object URL of the icon blob is abstracted by the path the blob was
fetched from. -/
structure Card where
  href : String
  target : String
  linkClass : String
  iconSrc : String
  iconClass : String
  nameText : String
  nameClass : String
  descriptionText : String
  descriptionClass : String
deriving Repr, DecidableEq

/-- The card the `forEach` callback of `getSites` (src/js/sites.js) builds
for one site record once that site's icon fetch has resolved. -/
def buildCard (site : Site) : Card :=
  { href := "/sites/" ++ site.name
  , target := "_blank"
  , linkClass := "site"
  , iconSrc := "/sites/" ++ site.name ++ "/favicon.ico"
  , iconClass := "site-icon"
  , nameText := site.data.title
  , nameClass := "site-name"
  , descriptionText := site.data.description
  , descriptionClass := "site-description" }

/-- The final children of the `site-list` container after `getSites`
(src/js/sites.js) runs to completion.  `init` is the container's content
before the run (wiped by `sitesList.innerHTML = ""`); `sites` is the
`sites` field of the API response; `schedule` is the order in which the
per-site icon fetches resolve, as a list of indices into `sites` — each
callback appends its card only when its own icon fetch resolves, so the
cards appear in schedule order. -/
def getSitesRun (init : List Card) (sites : List Site) (schedule : List Nat) :
    List Card :=
  let _ := init
  let cleared : List Card := []
  cleared ++ schedule.filterMap (fun i => sites[i]?.map buildCard)

/-- The icon-fetch schedule is valid when every icon fetch resolves exactly
once: the schedule is a permutation of the indices of the site list. -/
def validSchedule (sites : List Site) (schedule : List Nat) : Prop :=
  schedule.Perm (List.range sites.length)

/-- Resolving the indices of a site list in its natural order yields exactly
the cards of the list, in order. -/
theorem filterMap_get_range (f : Site → Card) :
    ∀ sites : List Site,
      (List.range sites.length).filterMap (fun i => sites[i]?.map f) =
        sites.map f := by
  intro sites
  induction sites with
  | nil => rfl
  | cons a l ih =>
      have hcomp : ((fun i => (a :: l)[i]?.map f) ∘ Nat.succ) =
          fun i => l[i]?.map f := by
        funext i
        simp
      simp only [List.length_cons, List.range_succ_eq_map,
        List.filterMap_cons, List.filterMap_map, hcomp]
      simp [ih]

/-- Any valid schedule resolves every index of the site list, so the run
produces a permutation of the cards of the list. -/
theorem getSitesRun_perm (init : List Card) (sites : List Site)
    (schedule : List Nat) (h : validSchedule sites schedule) :
    (getSitesRun init sites schedule).Perm (sites.map buildCard) := by
  have hperm := h.filterMap (fun i => (sites.get? i).map buildCard)
  simpa [getSitesRun, filterMap_get_range] using hperm

/-- C1: for every API response whose `sites` field is a list of N site
records, running the site lister leaves exactly N card elements (one
`a.site` link per record) in the `site-list` container — the cards are
exactly the records' cards, up to order — and for the empty list the
container ends up empty after being cleared. -/
theorem getSites_card_count (init : List Card) (sites : List Site)
    (schedule : List Nat) (h : validSchedule sites schedule) :
    (getSitesRun init sites schedule).length = sites.length ∧
    (getSitesRun init sites schedule).Perm (sites.map buildCard) ∧
    (sites = [] → getSitesRun init sites schedule = []) := by
  have hp := getSitesRun_perm init sites schedule h
  refine ⟨by simpa using hp.length_eq, hp, ?_⟩
  intro hnil
  subst hnil
  have hlen : (getSitesRun init [] schedule).length = 0 := by
    simpa using hp.length_eq
  exact List.length_eq_zero.mp hlen

/-- Witness for C1 at a concrete one-record response and its only valid
schedule. -/
theorem getSites_card_count_witness :
    validSchedule [⟨"a", ⟨"A", "da"⟩⟩] [0] ∧
    (getSitesRun [] [⟨"a", ⟨"A", "da"⟩⟩] [0]).length = 1 := by
  have hv : validSchedule [(⟨"a", ⟨"A", "da"⟩⟩ : Site)] [0] := by
    unfold validSchedule
    decide
  exact ⟨hv, (getSites_card_count [] _ [0] hv).1.trans rfl⟩

/-- C8: card insertion order is not guaranteed to match the source list
order — for some response and some schedule of icon-fetch completions, the
cards appear in a different order than the records. -/
theorem card_order_not_source_order :
    ∃ (sites : List Site) (schedule : List Nat),
      validSchedule sites schedule ∧
      getSitesRun [] sites schedule ≠ sites.map buildCard := by
  refine ⟨[⟨"a", ⟨"A", "da"⟩⟩, ⟨"b", ⟨"B", "db"⟩⟩], [1, 0], ?_, ?_⟩
  · unfold validSchedule
    decide
  · decide

/-! ## Theme controller (src/script.js) -/

/-- The inline style of the document root (`document.querySelector(":root")`),
as the partial map of custom properties set via `setProperty`. -/
def Style : Type := String → Option String

/-- `root.style.setProperty(name, value)`. -/
def setProperty (style : Style) (name value : String) : Style :=
  fun n => if n = name then some value else style n

/-- `updateTheme(theme)` of src/script.js: rewrites the seven root custom
properties to reference the theme-prefixed variants. -/
def updateTheme (theme : String) (root : Style) : Style :=
  let root := setProperty root "--crust" ("var(--" ++ theme ++ "-crust)")
  let root := setProperty root "--mantle" ("var(--" ++ theme ++ "-mantle)")
  let root := setProperty root "--base" ("var(--" ++ theme ++ "-base)")
  let root := setProperty root "--surface0" ("var(--" ++ theme ++ "-surface0)")
  let root := setProperty root "--surface1" ("var(--" ++ theme ++ "-surface1)")
  let root := setProperty root "--surface2" ("var(--" ++ theme ++ "-surface2)")
  setProperty root "--text" ("var(--" ++ theme ++ "-text)")

/-- The names of the seven properties `updateTheme` writes. -/
def themePropNames : List String :=
  ["--crust", "--mantle", "--base", "--surface0", "--surface1", "--surface2",
   "--text"]

/-- A root style with no overridden custom property: the state of
`:root`'s inline style before any script ran. -/
def emptyStyle : Style := fun _ => none

/-- The state the theme controller acts on: the value stored under the
local-storage key `theme`, and the inline style of the document root. -/
structure ThemeState where
  storage : Option String
  rootStyle : Style

/-- The load-time sequence of src/script.js lines 13-17:
read `localStorage.getItem("theme")`; if it is null, store `"dark"`;
then apply `updateTheme` to a fresh read of the stored value.  After the
conditional store the read is never null; `getD "null"` mirrors how a null
read would be interpolated by the template literal. -/
def themeInit (s : ThemeState) : ThemeState :=
  let storage1 :=
    match s.storage with
    | none => some "dark"
    | some v => some v
  { storage := storage1
  , rootStyle := updateTheme (storage1.getD "null") s.rootStyle }

/-- The `change` listener attached to the theme toggle (src/script.js
lines 38-41): store `"light"` or `"dark"` according to `e.target.checked`,
then apply `updateTheme` to a fresh read of the stored value. -/
def themeToggleChange (checked : Bool) (s : ThemeState) : ThemeState :=
  let storage1 := some (if checked then "light" else "dark")
  { storage := storage1
  , rootStyle := updateTheme (storage1.getD "null") s.rootStyle }

/-- The seven overridden root properties all reference the `--{t}-*`
variants of theme `t`. -/
def referencesTheme (style : Style) (t : String) : Prop :=
  style "--crust" = some ("var(--" ++ t ++ "-crust)") ∧
  style "--mantle" = some ("var(--" ++ t ++ "-mantle)") ∧
  style "--base" = some ("var(--" ++ t ++ "-base)") ∧
  style "--surface0" = some ("var(--" ++ t ++ "-surface0)") ∧
  style "--surface1" = some ("var(--" ++ t ++ "-surface1)") ∧
  style "--surface2" = some ("var(--" ++ t ++ "-surface2)") ∧
  style "--text" = some ("var(--" ++ t ++ "-text)")

/-- Applying `updateTheme t` makes the seven properties reference theme
`t`. -/
theorem referencesTheme_updateTheme (t : String) (style : Style) :
    referencesTheme (updateTheme t style) t :=
  ⟨rfl, rfl, rfl, rfl, rfl, rfl, rfl⟩

/-- `updateTheme` leaves every property outside the seven untouched. -/
theorem updateTheme_other (t : String) (style : Style) (name : String)
    (h : name ∉ themePropNames) : updateTheme t style name = style name := by
  simp only [themePropNames, List.mem_cons, List.not_mem_nil, or_false,
    not_or] at h
  obtain ⟨h1, h2, h3, h4, h5, h6, h7⟩ := h
  simp [updateTheme, setProperty, h1, h2, h3, h4, h5, h6, h7]

/-- C6: for every theme string `t`, `updateTheme` rewrites exactly the
fixed set of root custom properties (crust, mantle, base, surface0,
surface1, surface2, text), each coming to reference `--{t}-{layer}`, and
touches no other property. -/
theorem updateTheme_rewrites_exactly (t : String) (style : Style) :
    referencesTheme (updateTheme t style) t ∧
    ∀ name, name ∉ themePropNames → updateTheme t style name = style name :=
  ⟨referencesTheme_updateTheme t style,
    fun name h => updateTheme_other t style name h⟩

/-- Witness for C6: the unrelated property `--accent` is untouched by a
concrete `updateTheme` run. -/
theorem updateTheme_rewrites_exactly_witness :
    "--accent" ∉ themePropNames ∧
    updateTheme "dark" emptyStyle "--accent" = emptyStyle "--accent" :=
  ⟨by decide,
    (updateTheme_rewrites_exactly "dark" emptyStyle).2 "--accent" (by decide)⟩

/-- C2: if local storage has no value under `theme` at load, the load
sequence stores `"dark"` and leaves the root with exactly the seven
properties overridden, each referencing the `--dark-*` variant. -/
theorem themeInit_defaults_dark :
    (themeInit ⟨none, emptyStyle⟩).storage = some "dark" ∧
    referencesTheme (themeInit ⟨none, emptyStyle⟩).rootStyle "dark" ∧
    ∀ name, name ∉ themePropNames →
      (themeInit ⟨none, emptyStyle⟩).rootStyle name = none := by
  refine ⟨rfl, referencesTheme_updateTheme "dark" emptyStyle, ?_⟩
  intro name h
  show updateTheme "dark" emptyStyle name = none
  rw [updateTheme_other "dark" emptyStyle name h]
  rfl

/-- Witness for C2: the unrelated property `--accent` stays unset after the
load sequence runs on empty storage. -/
theorem themeInit_defaults_dark_witness :
    "--accent" ∉ themePropNames ∧
    (themeInit ⟨none, emptyStyle⟩).rootStyle "--accent" = none :=
  ⟨by decide, themeInit_defaults_dark.2.2 "--accent" (by decide)⟩

/-- C3: a change event with the checkbox checked persists `"light"` and
rewrites the properties to the `--light-*` variants; with the checkbox
unchecked it persists `"dark"` and the properties reference `--dark-*`
again. -/
theorem toggle_change_persists (s : ThemeState) :
    ((themeToggleChange true s).storage = some "light" ∧
      referencesTheme (themeToggleChange true s).rootStyle "light") ∧
    ((themeToggleChange false s).storage = some "dark" ∧
      referencesTheme (themeToggleChange false s).rootStyle "dark") :=
  ⟨⟨rfl, referencesTheme_updateTheme "light" s.rootStyle⟩,
    ⟨rfl, referencesTheme_updateTheme "dark" s.rootStyle⟩⟩

/-- C7: the theme-key invariant — when the stored value is absent or in
{"dark", "light"} beforehand, each operation of the controller leaves a
value in {"dark", "light"}, and neither operation ever deletes the key. -/
theorem theme_key_invariant (s : ThemeState) (b : Bool)
    (h : s.storage = none ∨ s.storage = some "dark" ∨
      s.storage = some "light") :
    ((themeInit s).storage = some "dark" ∨
      (themeInit s).storage = some "light") ∧
    ((themeToggleChange b s).storage = some "dark" ∨
      (themeToggleChange b s).storage = some "light") ∧
    (themeInit s).storage.isSome = true ∧
    (themeToggleChange b s).storage.isSome = true := by
  rcases h with h | h | h <;> cases b <;>
    simp [themeInit, themeToggleChange, h]

/-- Witness for C7 at empty storage and a checked toggle. -/
theorem theme_key_invariant_witness :
    ((themeInit ⟨none, emptyStyle⟩).storage = some "dark" ∨
      (themeInit ⟨none, emptyStyle⟩).storage = some "light") ∧
    ((themeToggleChange true ⟨none, emptyStyle⟩).storage = some "dark" ∨
      (themeToggleChange true ⟨none, emptyStyle⟩).storage = some "light") :=
  ⟨(theme_key_invariant ⟨none, emptyStyle⟩ true (Or.inl rfl)).1,
    (theme_key_invariant ⟨none, emptyStyle⟩ true (Or.inl rfl)).2.1⟩

/-- C9: after the load sequence and after every toggle change, the theme
applied to the root agrees with storage — the overridden properties
reference `--{t}-*` where `t` is exactly the value stored under `theme`. -/
theorem applied_agrees_with_storage (s : ThemeState) (b : Bool) :
    (∃ t, (themeInit s).storage = some t ∧
      referencesTheme (themeInit s).rootStyle t) ∧
    (∃ t, (themeToggleChange b s).storage = some t ∧
      referencesTheme (themeToggleChange b s).rootStyle t) := by
  constructor
  · cases hs : s.storage with
    | none =>
        refine ⟨"dark", ?_, ?_⟩
        · simp [themeInit, hs]
        · have hstyle : (themeInit s).rootStyle =
              updateTheme "dark" s.rootStyle := by
            simp [themeInit, hs]
          rw [hstyle]
          exact referencesTheme_updateTheme "dark" s.rootStyle
    | some v =>
        refine ⟨v, ?_, ?_⟩
        · simp [themeInit, hs]
        · have hstyle : (themeInit s).rootStyle =
              updateTheme v s.rootStyle := by
            simp [themeInit, hs]
          rw [hstyle]
          exact referencesTheme_updateTheme v s.rootStyle
  · cases b with
    | true =>
        exact ⟨"light", rfl, referencesTheme_updateTheme "light" s.rootStyle⟩
    | false =>
        exact ⟨"dark", rfl, referencesTheme_updateTheme "dark" s.rootStyle⟩

/-- C10: if storage already holds any value `s` under `theme` at load —
validated or not — the load sequence leaves it unchanged and applies it
verbatim, the root properties referencing `--{s}-*` variants. -/
theorem themeInit_preserves_existing (v : String) (style0 : Style) :
    (themeInit ⟨some v, style0⟩).storage = some v ∧
    referencesTheme (themeInit ⟨some v, style0⟩).rootStyle v :=
  ⟨rfl, referencesTheme_updateTheme v style0⟩

/-! ## Navbar loaders and the toggle wiring gated on them -/

/-- The `getNavbar` promise of src/script.js lines 19-27: it wraps
`fetch("navbar.html")`, and `resolve(data)` is called only on the success
path of the chain — the promise settles exactly when the fetch resolves.
`fetchOutcome` is `some text` when the fetch resolves with that text, and
`none` when it fails or never resolves; the result is the settled value of
the promise, `none` meaning it never settles. -/
def getNavbarScript (fetchOutcome : Option String) : Option String :=
  match fetchOutcome with
  | some data => some data
  | none => none

/-- The `getNavbar` promise of the duplicate loader src/unnamed/part_000
lines 2-10: identical construction, `resolve(data)` called only on the
success path. -/
def getNavbarPart000 (fetchOutcome : Option String) : Option String :=
  match fetchOutcome with
  | some data => some data
  | none => none

/-- The page state produced by running src/script.js to quiescence:
the theme state, the inner markup of the `navbar` placeholder (`none` =
never written), whether the toggle element was ever looked up, the checked
state written to it, and whether the change listener was attached. -/
structure PageState where
  theme : ThemeState
  navbarHTML : Option String
  toggleQueried : Bool
  toggleChecked : Option Bool
  listenerAttached : Bool

/-- A full run of src/script.js: the load-time theme sequence runs first;
the `getNavbar.then` callback (inject the fragment, look up the toggle,
set its checked state, attach the change listener) runs exactly when the
`getNavbar` promise settles. -/
def scriptRun (fetchOutcome : Option String) (s0 : ThemeState) : PageState :=
  let s1 := themeInit s0
  match getNavbarScript fetchOutcome with
  | none =>
      { theme := s1
      , navbarHTML := none
      , toggleQueried := false
      , toggleChecked := none
      , listenerAttached := false }
  | some data =>
      let theme := s1.storage
      { theme := s1
      , navbarHTML := some data
      , toggleQueried := true
      , toggleChecked := some (theme == some "light")
      , listenerAttached := true }

/-- A full run of src/unnamed/part_000: the `then` callback writes the
fetched text into the `navbar` placeholder exactly when the promise
settles; the result is the placeholder's markup (`none` = still empty). -/
def part000Run (fetchOutcome : Option String) : Option String :=
  match getNavbarPart000 fetchOutcome with
  | none => none
  | some data => some data

/-- C4: in every execution in which the navbar-fragment fetch never
resolves, the theme controller never looks up the toggle element and never
attaches its change listener; and in any execution the listener is
attached only if the fragment promise settled. -/
theorem navbar_gates_toggle_wiring (s0 : ThemeState) :
    (scriptRun none s0).toggleQueried = false ∧
    (scriptRun none s0).listenerAttached = false ∧
    ∀ fo, (scriptRun fo s0).listenerAttached = true →
      (getNavbarScript fo).isSome = true := by
  refine ⟨rfl, rfl, ?_⟩
  intro fo h
  cases fo with
  | none => exact absurd h (by simp [scriptRun, getNavbarScript])
  | some data => rfl

/-- Witness for C4: on a resolving fetch the listener is attached and the
promise indeed settled. -/
theorem navbar_gates_toggle_wiring_witness :
    (scriptRun (some "nav") ⟨none, emptyStyle⟩).listenerAttached = true ∧
    (getNavbarScript (some "nav")).isSome = true :=
  ⟨rfl, (navbar_gates_toggle_wiring ⟨none, emptyStyle⟩).2.2 (some "nav") rfl⟩

/-- Counterexample to C5 as stated: the never-settles-on-failure behaviour
does not hold for exactly one of the two variants — it holds for both,
since both copies call only `resolve` on the success path. -/
theorem neverSettles_not_exactly_one :
    ¬ (((getNavbarScript none).isSome = false ∧
          ¬ (getNavbarPart000 none).isSome = false) ∨
        ((getNavbarPart000 none).isSome = false ∧
          ¬ (getNavbarScript none).isSome = false)) := by
  decide

/-- C5 (amended): for each navbar loader, on successful resolution the
fetched text is set as the inner markup of the `navbar` placeholder; on
fetch failure the wrapping promise never settles in both variants (each
calls only `resolve` on the success path), so the placeholder stays empty
indefinitely and no later handler runs. -/
theorem navbar_loader_success_and_failure (data : String) (s0 : ThemeState) :
    part000Run (some data) = some data ∧
    (scriptRun (some data) s0).navbarHTML = some data ∧
    (getNavbarScript none).isSome = false ∧
    (getNavbarPart000 none).isSome = false ∧
    part000Run none = none ∧
    (scriptRun none s0).navbarHTML = none ∧
    (scriptRun none s0).listenerAttached = false :=
  ⟨rfl, rfl, rfl, rfl, rfl, rfl, rfl⟩
